import Mathlib

/-! Verification development for the slip39_dart Flutter plugin platform shims.

The supplied sources are:
- `src/windows/slip39_dart_plugin_c_api.cpp`, whose single function
  `Slip39DartPluginCApiRegisterWithRegistrar` looks the typed Windows registrar up on the
  `flutter::PluginRegistrarManager` singleton and delegates to
  `slip39_dart::Slip39DartPlugin::RegisterWithRegistrar`;
- `src/windows/slip39_dart_plugin.h`, declaring the `Slip39DartPlugin` class (static
  `RegisterWithRegistrar`, default constructor, virtual destructor, deleted copy constructor
  and copy assignment, and `HandleMethodCall`);
- `src/linux/include/slip39_dart/slip39_dart_plugin.h`, declaring the GObject plugin type
  accessor `slip39_dart_plugin_get_type` and `slip39_dart_plugin_register_with_registrar`.

The embedding passes framework state explicitly and records every call made into the host
framework as an event trace, so that claims about what the shims do (and do not do) become
statements about the produced trace and the state delta. -/

/-- Raw registrar references (`FlutterDesktopPluginRegistrarRef`): opaque handles handed to
the plugin by the host; a null handle is modelled as `0`. -/
abbrev RegistrarRef := Nat

/-- Typed Windows registrar wrappers (`flutter::PluginRegistrarWindows*`), again opaque. -/
abbrev RegistrarWindows := Nat

/-- The state of the `flutter::PluginRegistrarManager` singleton, abstracted to the
association it maintains from raw registrar references to typed registrar wrappers.
The association is framework-internal; the supplied code only queries it. -/
structure ManagerState where
  getRegistrar : RegistrarRef → RegistrarWindows

/-- Framework-visible state threaded through the registration shims: the manager singleton,
the number of `Slip39DartPlugin` instances constructed so far, and which registrars have had
a method channel bound respectively a plugin instance added. -/
structure FrameworkState where
  manager : ManagerState
  pluginCount : Nat
  channels : List RegistrarWindows
  plugins : List RegistrarWindows

/-- One call into (or observable act of) the host framework.  The constructors cover both the
calls the supplied code actually performs (`getInstance`, `getRegistrar`, `constructPlugin`,
`bindMethodChannel`, `addPlugin`) and acts the framework offers but this code never performs
(`copyPlugin`, `signalError`, `blockThread`, `suspendThread`, `spawnThread`); the latter make
the spec's absence claims statable as properties of the trace. -/
inductive FrameworkEvent
  | getInstance
  | getRegistrar (ref : RegistrarRef) (result : RegistrarWindows)
  | constructPlugin
  | copyPlugin
  | bindMethodChannel (reg : RegistrarWindows)
  | addPlugin (reg : RegistrarWindows)
  | signalError (code : String)
  | blockThread
  | suspendThread
  | spawnThread
deriving DecidableEq

/-- Whether an event is a default construction of a `Slip39DartPlugin` instance. -/
def FrameworkEvent.isConstruct : FrameworkEvent → Bool
  | FrameworkEvent.constructPlugin => true
  | _ => false

/-- Whether an event copies a plugin instance (copy construction or copy assignment). -/
def FrameworkEvent.isCopy : FrameworkEvent → Bool
  | FrameworkEvent.copyPlugin => true
  | _ => false

/-- Whether an event binds a method channel on a registrar. -/
def FrameworkEvent.isChannelBind : FrameworkEvent → Bool
  | FrameworkEvent.bindMethodChannel _ => true
  | _ => false

/-- Whether an event signals an error. -/
def FrameworkEvent.isErrorSignal : FrameworkEvent → Bool
  | FrameworkEvent.signalError _ => true
  | _ => false

/-- Whether an event blocks, suspends, or spawns concurrent work. -/
def FrameworkEvent.isBlockingOrConcurrent : FrameworkEvent → Bool
  | FrameworkEvent.blockThread => true
  | FrameworkEvent.suspendThread => true
  | FrameworkEvent.spawnThread => true
  | _ => false

/-- Whether an event belongs to the framework registration call chain
(singleton lookup, typed-registrar lookup, plugin construction, channel binding,
plugin registration). -/
def FrameworkEvent.inRegistrationChain : FrameworkEvent → Bool
  | FrameworkEvent.getInstance => true
  | FrameworkEvent.getRegistrar _ _ => true
  | FrameworkEvent.constructPlugin => true
  | FrameworkEvent.bindMethodChannel _ => true
  | FrameworkEvent.addPlugin _ => true
  | _ => false

/-- Control-flow kind of an event: the constructor head with arguments erased.  Two traces
with equal kind sequences arise from the same sequence of statements. -/
def FrameworkEvent.kind : FrameworkEvent → Nat
  | FrameworkEvent.getInstance => 0
  | FrameworkEvent.getRegistrar _ _ => 1
  | FrameworkEvent.constructPlugin => 2
  | FrameworkEvent.copyPlugin => 3
  | FrameworkEvent.bindMethodChannel _ => 4
  | FrameworkEvent.addPlugin _ => 5
  | FrameworkEvent.signalError _ => 6
  | FrameworkEvent.blockThread => 7
  | FrameworkEvent.suspendThread => 8
  | FrameworkEvent.spawnThread => 9

/-- Embeds `flutter::PluginRegistrarManager::GetInstance()->GetRegistrar<flutter::PluginRegistrarWindows>(ref)`
as performed by `src/windows/slip39_dart_plugin_c_api.cpp`: a query of the manager singleton's
association, emitting the singleton access and the typed-registrar lookup.  The lookup is
framework-provided and does not change any state owned by this plugin. -/
def PluginRegistrarManager.getTypedRegistrar (s : FrameworkState) (ref : RegistrarRef) :
    RegistrarWindows × List FrameworkEvent :=
  (s.manager.getRegistrar ref,
   [FrameworkEvent.getInstance, FrameworkEvent.getRegistrar ref (s.manager.getRegistrar ref)])

/-- Modelled from the spec: the body of `slip39_dart::Slip39DartPlugin::RegisterWithRegistrar`
is not among the supplied sources (`src/windows/slip39_dart_plugin.h` only declares it).
Per the spec, it "constructs a plugin instance and binds it to a method channel on the given
registrar": one default construction, one channel binding on `reg`, and the instance added to
`reg`, with no guard or deduplication (the spec states at-most-once registration is a
host-framework guarantee, not enforced by this code). -/
def Slip39DartPlugin.RegisterWithRegistrar (s : FrameworkState) (reg : RegistrarWindows) :
    FrameworkState × List FrameworkEvent :=
  ({ s with
      pluginCount := s.pluginCount + 1,
      channels := reg :: s.channels,
      plugins := reg :: s.plugins },
   [FrameworkEvent.constructPlugin, FrameworkEvent.bindMethodChannel reg,
    FrameworkEvent.addPlugin reg])

/-- Embeds `Slip39DartPluginCApiRegisterWithRegistrar` from
`src/windows/slip39_dart_plugin_c_api.cpp` (lines 7-12): obtain the typed registrar for
`registrar` from the manager singleton and pass it to
`Slip39DartPlugin.RegisterWithRegistrar`; nothing else. -/
def Slip39DartPluginCApiRegisterWithRegistrar (s : FrameworkState) (registrar : RegistrarRef) :
    FrameworkState × List FrameworkEvent :=
  let lookup := PluginRegistrarManager.getTypedRegistrar s registrar
  let call := Slip39DartPlugin.RegisterWithRegistrar s lookup.1
  (call.1, lookup.2 ++ call.2)

/-- The whole process state: the framework state touched by the registration call chain,
together with all state outside that chain, abstracted to one component.  Used to state the
frame property of the registration entry point. -/
structure World where
  fw : FrameworkState
  outside : Nat

/-- `Slip39DartPluginCApiRegisterWithRegistrar` viewed on the whole process state: the
source function's body mentions nothing outside the single framework call chain. -/
def capiRegisterInWorld (w : World) (registrar : RegistrarRef) :
    World × List FrameworkEvent :=
  let r := Slip39DartPluginCApiRegisterWithRegistrar w.fw registrar
  ({ fw := r.1, outside := w.outside }, r.2)

/-- Status of a C++ special member function as declared in a class. -/
inductive MemberStatus
  | available
  | deleted
deriving DecidableEq

/-- The special members of `slip39_dart::Slip39DartPlugin`, transcribed from
`src/windows/slip39_dart_plugin.h` lines 13-26: a public default constructor, a public
virtual destructor, and deleted copy constructor and copy assignment. -/
structure CppSpecialMembers where
  defaultConstructor : MemberStatus
  destructor : MemberStatus
  copyConstructor : MemberStatus
  copyAssignment : MemberStatus

/-- Transcription of the `Slip39DartPlugin` class declaration in
`src/windows/slip39_dart_plugin.h`. -/
def slip39DartPluginMembers : CppSpecialMembers :=
  { defaultConstructor := MemberStatus.available,
    destructor := MemberStatus.available,
    copyConstructor := MemberStatus.deleted,
    copyAssignment := MemberStatus.deleted }

/-- A minimal model of `flutter::EncodableValue`, the variant type carried across the
method channel.  Only its presence matters to the supplied code. -/
inductive EncodableValue
  | null
  | boolean (b : Bool)
  | intVal (i : Int)
  | str (s : String)
deriving DecidableEq

/-- A method invocation arriving over the plugin's method channel
(`flutter::MethodCall<flutter::EncodableValue>`). -/
structure MethodCall where
  method : String
  arguments : Option EncodableValue
deriving DecidableEq

/-- One signal sent through the result sink
(`flutter::MethodResult<flutter::EncodableValue>`): success or error. -/
inductive SinkSignal
  | success (value : Option EncodableValue)
  | error (code message : String) (details : Option EncodableValue)
deriving DecidableEq

/-- Whether a sink signal is a success or an error signal. -/
def SinkSignal.isSuccessOrError : SinkSignal → Bool
  | SinkSignal.success _ => true
  | SinkSignal.error _ _ _ => true

/-- Modelled from the spec: the body of `Slip39DartPlugin::HandleMethodCall` is not among the
supplied sources (`src/windows/slip39_dart_plugin.h` only declares it).  Per the spec, it
"receives a method invocation and a result sink through which success or error must
eventually be signaled exactly once", while the dispatch outcome itself is unshown domain
logic, abstracted here as the parameter `dispatch`.  The returned list is the sequence of
signals sent through the result sink. -/
def Slip39DartPlugin.HandleMethodCall (dispatch : MethodCall → SinkSignal)
    (call : MethodCall) : List SinkSignal :=
  [dispatch call]

/-- Opaque handles for `FlPluginRegistrar*` on Linux; the null pointer is `0`. -/
abbrev FlPluginRegistrar := Nat

/-- The null `FlPluginRegistrar*`. -/
def nullFlPluginRegistrar : FlPluginRegistrar := 0

/-- GLib type-system state relevant to this plugin: how many times the
`Slip39DartPlugin` GObject type has been registered. -/
structure LinuxTypeState where
  registeredCount : Nat
deriving DecidableEq

/-- Modelled from the spec: the Linux implementation file is not among the supplied sources
(`src/linux/include/slip39_dart/slip39_dart_plugin.h` only declares the entry points).
`slip39_dart_plugin_get_type` follows the GObject convention the header commits to:
registration of the type happens on first use and is idempotent afterwards. -/
def slip39_dart_plugin_get_type (s : LinuxTypeState) : LinuxTypeState :=
  if s.registeredCount = 0 then { registeredCount := 1 } else s

/-- Modelled from the spec: the Linux implementation file is not among the supplied sources.
Per the spec, calling the registration function with a valid registrar "does not crash and
results in the plugin type being registered exactly once"; the function takes the registrar
handle and ensures the plugin type is registered via `slip39_dart_plugin_get_type`.
Totality of this definition models absence of a crash. -/
def slip39_dart_plugin_register_with_registrar (s : LinuxTypeState)
    (reg : FlPluginRegistrar) : LinuxTypeState :=
  slip39_dart_plugin_get_type s

/-- A concrete manager singleton state used to instantiate theorems with hypotheses. -/
def testManager : ManagerState :=
  { getRegistrar := fun r => r + 100 }

/-- A concrete framework state used to instantiate theorems with hypotheses. -/
def testStateA : FrameworkState :=
  { manager := testManager, pluginCount := 0, channels := [], plugins := [] }

/-- A second concrete framework state, sharing `testStateA`'s manager singleton but
differing elsewhere. -/
def testStateB : FrameworkState :=
  { manager := testManager, pluginCount := 3, channels := [5], plugins := [5] }

/-- Both constructors of `SinkSignal` are a success or an error signal. -/
theorem SinkSignal.isSuccessOrError_eq_true (sig : SinkSignal) :
    sig.isSuccessOrError = true := by
  cases sig <;> rfl

/-- Claim C1: for every registrar reference, `Slip39DartPluginCApiRegisterWithRegistrar`
obtains the typed Windows registrar for that reference from the `PluginRegistrarManager`
singleton (singleton access followed by the typed-registrar lookup) and passes it to
`slip39_dart::Slip39DartPlugin::RegisterWithRegistrar`, performing no other action: its
entire effect and trace are exactly the lookup followed by the delegated call. -/
theorem C1_capi_delegates_only (s : FrameworkState) (ref : RegistrarRef) :
    Slip39DartPluginCApiRegisterWithRegistrar s ref =
      ((Slip39DartPlugin.RegisterWithRegistrar s (s.manager.getRegistrar ref)).1,
       FrameworkEvent.getInstance ::
         FrameworkEvent.getRegistrar ref (s.manager.getRegistrar ref) ::
           (Slip39DartPlugin.RegisterWithRegistrar s (s.manager.getRegistrar ref)).2) :=
  rfl

/-- Claim C2: one call to the Windows registration function, reached through
`Slip39DartPluginCApiRegisterWithRegistrar`, constructs exactly one `Slip39DartPlugin`
instance and binds exactly one method channel on the registrar obtained for the given
reference. -/
theorem C2_registers_one_plugin_one_channel (s : FrameworkState) (ref : RegistrarRef) :
    (Slip39DartPluginCApiRegisterWithRegistrar s ref).1.pluginCount = s.pluginCount + 1 ∧
    (Slip39DartPluginCApiRegisterWithRegistrar s ref).1.channels =
      s.manager.getRegistrar ref :: s.channels ∧
    ((Slip39DartPluginCApiRegisterWithRegistrar s ref).2.countP
        fun e => e.isConstruct) = 1 ∧
    ((Slip39DartPluginCApiRegisterWithRegistrar s ref).2.countP
        fun e => e.isChannelBind) = 1 :=
  ⟨rfl, rfl, rfl, rfl⟩

/-- Claim C3: every invocation delivered to `Slip39DartPlugin::HandleMethodCall` results in
the result sink being signaled with success or error, exactly once: the sequence of signals
sent through the sink has length one and consists of success-or-error signals. -/
theorem C3_result_sink_signaled_once (dispatch : MethodCall → SinkSignal)
    (call : MethodCall) :
    (Slip39DartPlugin.HandleMethodCall dispatch call).length = 1 ∧
    ((Slip39DartPlugin.HandleMethodCall dispatch call).all
        SinkSignal.isSuccessOrError) = true := by
  refine ⟨rfl, ?_⟩
  simp [Slip39DartPlugin.HandleMethodCall, SinkSignal.isSuccessOrError_eq_true]

/-- Claim C4: calling the Linux registration function with a valid (non-null) registrar does
not crash (the model is a total function) and afterwards the plugin type is registered
exactly once, whether or not the type had already been registered before the call. -/
theorem C4_linux_registers_type_once (s : LinuxTypeState) (reg : FlPluginRegistrar)
    (hreg : reg ≠ nullFlPluginRegistrar) (hcount : s.registeredCount ≤ 1) :
    (slip39_dart_plugin_register_with_registrar s reg).registeredCount = 1 := by
  by_cases h : s.registeredCount = 0
  · simp [slip39_dart_plugin_register_with_registrar, slip39_dart_plugin_get_type, h]
  · have h1 : s.registeredCount = 1 :=
      Nat.le_antisymm hcount (Nat.one_le_iff_ne_zero.mpr h)
    simp [slip39_dart_plugin_register_with_registrar, slip39_dart_plugin_get_type, h, h1]

/-- Witness for claim C4 at a concrete valid registrar and a fresh type-system state. -/
theorem C4_linux_registers_type_once_witness :
    (1 : FlPluginRegistrar) ≠ nullFlPluginRegistrar ∧
    (LinuxTypeState.mk 0).registeredCount ≤ 1 ∧
    (slip39_dart_plugin_register_with_registrar (LinuxTypeState.mk 0) 1).registeredCount
      = 1 :=
  ⟨by decide, by decide,
   C4_linux_registers_type_once (LinuxTypeState.mk 0) 1 (by decide) (by decide)⟩

/-- Claim C5: the Windows registration entry point has no error path of its own: for every
registrar reference it signals no error through the framework, and it checks no precondition
on its input — the sequence of framework calls it performs has the same shape for every
reference, including the null reference `0`. -/
theorem C5_no_error_path (s : FrameworkState) (ref refB : RegistrarRef) :
    ((Slip39DartPluginCApiRegisterWithRegistrar s ref).2.all
        fun e => !e.isErrorSignal) = true ∧
    (Slip39DartPluginCApiRegisterWithRegistrar s ref).2.map FrameworkEvent.kind =
      (Slip39DartPluginCApiRegisterWithRegistrar s refB).2.map FrameworkEvent.kind :=
  ⟨rfl, rfl⟩

/-- Claim C6: `Slip39DartPluginCApiRegisterWithRegistrar` has no side effects of its own:
on the whole process state it leaves everything outside the framework registration chain
unchanged, leaves the manager singleton's association unchanged, and every event it emits
belongs to the single framework registration call chain. -/
theorem C6_frame_no_side_effects (w : World) (ref : RegistrarRef) :
    (capiRegisterInWorld w ref).1.outside = w.outside ∧
    (capiRegisterInWorld w ref).1.fw.manager = w.fw.manager ∧
    ((capiRegisterInWorld w ref).2.all fun e => e.inRegistrationChain) = true :=
  ⟨rfl, rfl, rfl⟩

/-- Claim C7: the Windows registration entry point is a straight-line sequence of calls that
terminates for every registrar input: its trace is a fixed five-event sequence, and none of
its events blocks, suspends, or spawns concurrent work. -/
theorem C7_straight_line_terminates (s : FrameworkState) (ref : RegistrarRef) :
    (Slip39DartPluginCApiRegisterWithRegistrar s ref).2.length = 5 ∧
    ((Slip39DartPluginCApiRegisterWithRegistrar s ref).2.all
        fun e => !e.isBlockingOrConcurrent) = true :=
  ⟨rfl, rfl⟩

/-- Claim C8: the supplied code does not enforce at-most-once registration per registrar:
calling `Slip39DartPluginCApiRegisterWithRegistrar` twice with the same reference performs
the identical lookup-and-register event sequence the second time, constructs a second plugin
instance, and binds a second method channel on the same typed registrar. -/
theorem C8_no_dedup_on_repeat (s : FrameworkState) (ref : RegistrarRef) :
    (Slip39DartPluginCApiRegisterWithRegistrar
        (Slip39DartPluginCApiRegisterWithRegistrar s ref).1 ref).2 =
      (Slip39DartPluginCApiRegisterWithRegistrar s ref).2 ∧
    (Slip39DartPluginCApiRegisterWithRegistrar
        (Slip39DartPluginCApiRegisterWithRegistrar s ref).1 ref).1.pluginCount =
      s.pluginCount + 2 ∧
    (Slip39DartPluginCApiRegisterWithRegistrar
        (Slip39DartPluginCApiRegisterWithRegistrar s ref).1 ref).1.channels =
      s.manager.getRegistrar ref :: s.manager.getRegistrar ref :: s.channels :=
  ⟨rfl, rfl, rfl⟩

/-- Claim C9: a `Slip39DartPlugin` instance can never be duplicated through the public
interface: the class declares its copy constructor and copy assignment deleted, the
registration path performs no copy of a plugin instance, and every instance it brings into
existence corresponds to a default-construction event. -/
theorem C9_plugin_never_copied (s : FrameworkState) (ref : RegistrarRef) :
    slip39DartPluginMembers.copyConstructor = MemberStatus.deleted ∧
    slip39DartPluginMembers.copyAssignment = MemberStatus.deleted ∧
    ((Slip39DartPluginCApiRegisterWithRegistrar s ref).2.countP
        fun e => e.isCopy) = 0 ∧
    (Slip39DartPluginCApiRegisterWithRegistrar s ref).1.pluginCount =
      s.pluginCount +
        ((Slip39DartPluginCApiRegisterWithRegistrar s ref).2.countP
          fun e => e.isConstruct) :=
  ⟨rfl, rfl, rfl, rfl⟩

/-- Claim C10: `Slip39DartPluginCApiRegisterWithRegistrar` is deterministic: two runs given
the same registrar reference and the same registrar-manager singleton state perform the
identical sequence of framework calls and produce the same resulting registration state
(same instance-count increase and same newly bound channel). -/
theorem C10_registration_deterministic (sa sb : FrameworkState) (ref : RegistrarRef)
    (h : sa.manager = sb.manager) :
    (Slip39DartPluginCApiRegisterWithRegistrar sa ref).2 =
      (Slip39DartPluginCApiRegisterWithRegistrar sb ref).2 ∧
    (Slip39DartPluginCApiRegisterWithRegistrar sa ref).1.pluginCount - sa.pluginCount =
      (Slip39DartPluginCApiRegisterWithRegistrar sb ref).1.pluginCount - sb.pluginCount ∧
    (Slip39DartPluginCApiRegisterWithRegistrar sa ref).1.channels.head? =
      (Slip39DartPluginCApiRegisterWithRegistrar sb ref).1.channels.head? := by
  refine ⟨?_, ?_, ?_⟩ <;>
    simp [Slip39DartPluginCApiRegisterWithRegistrar,
      PluginRegistrarManager.getTypedRegistrar, Slip39DartPlugin.RegisterWithRegistrar, h]

/-- Witness for claim C10 at two concrete states sharing the manager singleton. -/
theorem C10_registration_deterministic_witness :
    testStateA.manager = testStateB.manager ∧
    ((Slip39DartPluginCApiRegisterWithRegistrar testStateA 2).2 =
        (Slip39DartPluginCApiRegisterWithRegistrar testStateB 2).2 ∧
      (Slip39DartPluginCApiRegisterWithRegistrar testStateA 2).1.pluginCount -
          testStateA.pluginCount =
        (Slip39DartPluginCApiRegisterWithRegistrar testStateB 2).1.pluginCount -
          testStateB.pluginCount ∧
      (Slip39DartPluginCApiRegisterWithRegistrar testStateA 2).1.channels.head? =
        (Slip39DartPluginCApiRegisterWithRegistrar testStateB 2).1.channels.head?) :=
  ⟨rfl, C10_registration_deterministic testStateA testStateB 2 rfl⟩
